import Mathlib

/-!
Verification of the position-sizing / risk-calculation core of the
`strategy-go` repository: the `Calculator` arithmetic (sizing, leverage,
take-profit, PnL, validation) and the fixed risk-reward strategy built on
top of it.  Go `float64` values are modelled as exact rationals; the
`time.Now()` stamp in `CalculatePosition` is modelled as an explicit
`now` argument.
-/

/-- Position side (`broker.Side`): Long or Short. -/
inductive Side where
  | long
  | short
  deriving DecidableEq, Repr

/-- `calculator.Calculator`: holds only a configured default max-leverage. -/
structure Calculator where
  maxLeverage : Int
  deriving DecidableEq, Repr

/-- `calculator.New`. -/
def Calculator.New (maxLeverage : Int) : Calculator :=
  { maxLeverage := maxLeverage }

/-- `Calculator.CalculateSize`: `riskAmount = balance * (riskPercent/100)`;
`priceRisk = entry - stopLoss` (Long) or `stopLoss - entry` (Short);
result `riskAmount / priceRisk`. -/
def Calculator.CalculateSize (_c : Calculator) (balance riskPercent entry stopLoss : ℚ)
    (side : Side) : ℚ :=
  let riskAmount := balance * (riskPercent / 100)
  let priceRisk :=
    match side with
    | Side.long => entry - stopLoss
    | Side.short => stopLoss - entry
  riskAmount / priceRisk

/-- `Calculator.CalculateLeverage`: `required = ceil(size*price/balance)`;
return `maxLeverage` when `required > maxLeverage`, `1` when `required < 1`,
otherwise `required`. -/
def Calculator.CalculateLeverage (_c : Calculator) (size price balance : ℚ)
    (maxLeverage : Int) : Int :=
  let notional := size * price
  let requiredLeverage : Int := ⌈notional / balance⌉
  if requiredLeverage > maxLeverage then maxLeverage
  else if requiredLeverage < 1 then 1
  else requiredLeverage

/-- `Calculator.CalculateRRTakeProfit`: `slDistance = |entry - stopLoss|`;
`entry + slDistance*rr` (Long) or `entry - slDistance*rr` (Short). -/
def Calculator.CalculateRRTakeProfit (_c : Calculator) (entry stopLoss rr : ℚ)
    (side : Side) : ℚ :=
  let slDistance := |entry - stopLoss|
  match side with
  | Side.long => entry + slDistance * rr
  | Side.short => entry - slDistance * rr

/-- `Calculator.ValidateStopLoss`: Long stop loss must be strictly below
entry, Short stop loss strictly above. -/
def Calculator.ValidateStopLoss (_c : Calculator) (side : Side) (entry stopLoss : ℚ) :
    Except String Unit :=
  if side = Side.long ∧ stopLoss ≥ entry then
    Except.error "LONG stop loss must be below entry"
  else if side = Side.short ∧ stopLoss ≤ entry then
    Except.error "SHORT stop loss must be above entry"
  else
    Except.ok ()

/-- `Calculator.ValidateInputs`: checks entry price, stop loss, risk percent,
account equity, then the side / stop-loss relationship. -/
def Calculator.ValidateInputs (c : Calculator) (side : Side)
    (entryPrice stopLoss riskPercent accountEquity : ℚ) : Except String Unit :=
  if entryPrice ≤ 0 then
    Except.error "entry price must be positive"
  else if stopLoss ≤ 0 then
    Except.error "stop loss must be positive"
  else if riskPercent ≤ 0 ∨ riskPercent > 100 then
    Except.error "risk percent must be between 0 and 100"
  else if accountEquity ≤ 0 then
    Except.error "account equity must be positive"
  else
    c.ValidateStopLoss side entryPrice stopLoss

/-- `Calculator.CalculatePnLPercent`: 0 when `entryPrice ≤ 0`, else
`(mark-entry)/entry*100` (Long) or `(entry-mark)/entry*100` (Short). -/
def Calculator.CalculatePnLPercent (_c : Calculator) (side : Side)
    (entryPrice markPrice : ℚ) : ℚ :=
  if entryPrice ≤ 0 then 0
  else
    match side with
    | Side.long => (markPrice - entryPrice) / entryPrice * 100
    | Side.short => (entryPrice - markPrice) / entryPrice * 100

/-- `Calculator.CalculateDistanceToPrice`: 0 when `currentPrice ≤ 0`, else
`(target-current)/current*100` (Long) or `(current-target)/current*100`
(Short). -/
def Calculator.CalculateDistanceToPrice (_c : Calculator) (side : Side)
    (currentPrice targetPrice : ℚ) : ℚ :=
  if currentPrice ≤ 0 then 0
  else
    match side with
    | Side.long => (targetPrice - currentPrice) / currentPrice * 100
    | Side.short => (currentPrice - targetPrice) / currentPrice * 100

/-- `strategy.StopLossType`. -/
inductive StopLossType where
  | fixed
  | trailing
  deriving DecidableEq, Repr

/-- `strategy.TakeProfitType`. -/
inductive TakeProfitType where
  | limit
  | trailing
  deriving DecidableEq, Repr

/-- `strategy.ActionType`. -/
inductive ActionType where
  | none
  | adjustSL
  | adjustTP
  | close
  | addPosition
  deriving DecidableEq, Repr

/-- `strategy.StopLossLevel` (the Go `Type` field is spelled `type` here). -/
structure StopLossLevel where
  Price : ℚ
  type : StopLossType
  ActivationPrice : ℚ := 0
  CallbackRate : ℚ := 0
  deriving DecidableEq, Repr

/-- `strategy.TakeProfitLevel`. -/
structure TakeProfitLevel where
  Price : ℚ
  Percentage : ℚ
  type : TakeProfitType
  ActivationPrice : ℚ := 0
  CallbackRate : ℚ := 0
  deriving DecidableEq, Repr

/-- `strategy.StrategyAction` (the derived-order list is not used by the
risk-ratio variant and is omitted). -/
structure StrategyAction where
  type : ActionType
  Reason : String := ""
  deriving DecidableEq, Repr

/-- `strategy.PositionParams` (the open-ended strategy-specific parameter map
is unused by the risk-ratio variant and is omitted). -/
structure PositionParams where
  Symbol : String
  side : Side
  EntryPrice : ℚ
  StopLoss : ℚ
  AccountBalance : ℚ
  RiskPercent : ℚ
  MaxLeverage : Int
  deriving DecidableEq, Repr

/-- `strategy.PositionPlan`; the `time.Time` stamp is modelled as a `Nat`. -/
structure PositionPlan where
  Symbol : String
  side : Side
  Size : ℚ
  EntryPrice : ℚ
  Leverage : Int
  StopLoss : StopLossLevel
  TakeProfits : List TakeProfitLevel
  RiskAmount : ℚ
  RiskPercent : ℚ
  NotionalValue : ℚ
  StrategyName : String
  Timestamp : Nat
  deriving DecidableEq, Repr

/-- `strategy.Position` snapshot (read-only input to the lifecycle hooks). -/
structure Position where
  Symbol : String
  side : Side
  Size : ℚ
  EntryPrice : ℚ
  MarkPrice : ℚ := 0
  deriving DecidableEq, Repr

/-- `riskratio.RiskRatioStrategy`: a calculator plus the configured RR ratio. -/
structure RiskRatioStrategy where
  calculator : Calculator
  rr : ℚ
  deriving DecidableEq, Repr

/-- `riskratio.New`: calculator configured with max leverage 125. -/
def RiskRatioStrategy.New (rr : ℚ) : RiskRatioStrategy :=
  { calculator := Calculator.New 125, rr := rr }

/-- `riskratio.RiskRatioStrategy.Name`. -/
def RiskRatioStrategy.Name (_s : RiskRatioStrategy) : String :=
  "risk-ratio"

/-- `riskratio.calculatorSideFromStrategy`: Long maps to Long, anything else
to Short. -/
def calculatorSideFromStrategy (side : Side) : Side :=
  match side with
  | Side.long => Side.long
  | Side.short => Side.short

/-- `riskratio.RiskRatioStrategy.CalculatePosition`: validate, compute size,
leverage (with the caller's `MaxLeverage`), RR take-profit, then assemble the
plan; `now` stands for `time.Now()`. -/
def RiskRatioStrategy.CalculatePosition (s : RiskRatioStrategy)
    (params : PositionParams) (now : Nat) : Except String PositionPlan :=
  let calcSide := calculatorSideFromStrategy params.side
  match s.calculator.ValidateInputs calcSide params.EntryPrice params.StopLoss
      params.RiskPercent params.AccountBalance with
  | Except.error e => Except.error ("validation failed: " ++ e)
  | Except.ok _ =>
    let size := s.calculator.CalculateSize params.AccountBalance params.RiskPercent
      params.EntryPrice params.StopLoss calcSide
    let leverage := s.calculator.CalculateLeverage size params.EntryPrice
      params.AccountBalance params.MaxLeverage
    let tpPrice := s.calculator.CalculateRRTakeProfit params.EntryPrice
      params.StopLoss s.rr calcSide
    Except.ok
      { Symbol := params.Symbol
        side := params.side
        Size := size
        EntryPrice := params.EntryPrice
        Leverage := leverage
        StopLoss := { Price := params.StopLoss, type := StopLossType.fixed }
        TakeProfits := [{ Price := tpPrice, Percentage := 100, type := TakeProfitType.limit }]
        RiskAmount := params.AccountBalance * params.RiskPercent / 100
        RiskPercent := params.RiskPercent
        NotionalValue := size * params.EntryPrice
        StrategyName := "risk-ratio"
        Timestamp := now }

/-- `riskratio.RiskRatioStrategy.OnPositionOpened`: always succeeds. -/
def RiskRatioStrategy.OnPositionOpened (_s : RiskRatioStrategy)
    (_position : Position) : Except String Unit :=
  Except.ok ()

/-- `riskratio.RiskRatioStrategy.OnPriceUpdate`: always the `None` action. -/
def RiskRatioStrategy.OnPriceUpdate (_s : RiskRatioStrategy)
    (_position : Position) (_currentPrice : ℚ) : Except String StrategyAction :=
  Except.ok { type := ActionType.none }

/-- `riskratio.RiskRatioStrategy.ShouldClose`: always `(false, "")`. -/
def RiskRatioStrategy.ShouldClose (_s : RiskRatioStrategy)
    (_position : Position) (_currentPrice : ℚ) : Bool × String :=
  (false, "")

/-- Erase the timestamp of a plan (all other fields kept), to compare two
plans up to `Timestamp`. -/
def stripTimestamp (p : PositionPlan) : PositionPlan :=
  { p with Timestamp := 0 }

/-- The worked example of the spec: Long, entry 45000, stop 44500,
balance 1000, risk 2 percent, max leverage 125. -/
def exampleParams : PositionParams :=
  { Symbol := "BTC-USDT", side := Side.long, EntryPrice := 45000, StopLoss := 44500,
    AccountBalance := 1000, RiskPercent := 2, MaxLeverage := 125 }

/-- The plan the risk-ratio strategy (rr = 2) produces for `exampleParams`
at time 0. -/
def examplePlan : PositionPlan :=
  { Symbol := "BTC-USDT", side := Side.long, Size := 1/25, EntryPrice := 45000,
    Leverage := 2,
    StopLoss := { Price := 44500, type := StopLossType.fixed },
    TakeProfits := [{ Price := 46000, Percentage := 100, type := TakeProfitType.limit }],
    RiskAmount := 20, RiskPercent := 2, NotionalValue := 1800,
    StrategyName := "risk-ratio", Timestamp := 0 }

/-- A request whose required leverage (150) lies between the strategy's
internal ceiling (125) and the caller's `MaxLeverage` (200). -/
def highMaxParams : PositionParams :=
  { Symbol := "BTC-USDT", side := Side.long, EntryPrice := 1500, StopLoss := 1490,
    AccountBalance := 1000, RiskPercent := 100, MaxLeverage := 200 }

/-- `exampleParams` with `MaxLeverage := 0`. -/
def zeroMaxParams : PositionParams :=
  { exampleParams with MaxLeverage := 0 }

theorem ceil_nine_fifths : (⌈(9/5 : ℚ)⌉ : ℤ) = 2 := by
  rw [Int.ceil_eq_iff]
  norm_num

theorem CalculatePosition_error_eq (s : RiskRatioStrategy) (params : PositionParams)
    (now : Nat) (e : String)
    (h : s.calculator.ValidateInputs (calculatorSideFromStrategy params.side)
      params.EntryPrice params.StopLoss params.RiskPercent params.AccountBalance
      = Except.error e) :
    s.CalculatePosition params now = Except.error ("validation failed: " ++ e) := by
  simp [RiskRatioStrategy.CalculatePosition, h]

theorem CalculatePosition_ok_eq (s : RiskRatioStrategy) (params : PositionParams)
    (now : Nat)
    (h : s.calculator.ValidateInputs (calculatorSideFromStrategy params.side)
      params.EntryPrice params.StopLoss params.RiskPercent params.AccountBalance
      = Except.ok ()) :
    s.CalculatePosition params now = Except.ok
      { Symbol := params.Symbol
        side := params.side
        Size := s.calculator.CalculateSize params.AccountBalance params.RiskPercent
          params.EntryPrice params.StopLoss (calculatorSideFromStrategy params.side)
        EntryPrice := params.EntryPrice
        Leverage := s.calculator.CalculateLeverage
          (s.calculator.CalculateSize params.AccountBalance params.RiskPercent
            params.EntryPrice params.StopLoss (calculatorSideFromStrategy params.side))
          params.EntryPrice params.AccountBalance params.MaxLeverage
        StopLoss := { Price := params.StopLoss, type := StopLossType.fixed }
        TakeProfits := [{ Price := s.calculator.CalculateRRTakeProfit params.EntryPrice params.StopLoss s.rr (calculatorSideFromStrategy params.side), Percentage := 100, type := TakeProfitType.limit }]
        RiskAmount := params.AccountBalance * params.RiskPercent / 100
        RiskPercent := params.RiskPercent
        NotionalValue := s.calculator.CalculateSize params.AccountBalance params.RiskPercent
          params.EntryPrice params.StopLoss (calculatorSideFromStrategy params.side)
          * params.EntryPrice
        StrategyName := "risk-ratio"
        Timestamp := now } := by
  simp [RiskRatioStrategy.CalculatePosition, h]

theorem exampleValidate_ok :
    (RiskRatioStrategy.New 2).calculator.ValidateInputs
      (calculatorSideFromStrategy exampleParams.side) exampleParams.EntryPrice
      exampleParams.StopLoss exampleParams.RiskPercent exampleParams.AccountBalance
      = Except.ok () := by
  norm_num [RiskRatioStrategy.New, calculatorSideFromStrategy, exampleParams,
    Calculator.ValidateInputs, Calculator.ValidateStopLoss]
  exact fun h => Side.noConfusion h

theorem exampleSize_eq :
    (Calculator.New 125).CalculateSize 1000 2 45000 44500 Side.long = 1/25 := by
  norm_num [Calculator.CalculateSize]

theorem exampleLeverage_eq :
    (Calculator.New 125).CalculateLeverage (1/25) 45000 1000 125 = 2 := by
  have hc : (⌈((1:ℚ)/25 * 45000 / 1000)⌉ : ℤ) = 2 := by
    rw [show ((1:ℚ)/25 * 45000 / 1000) = 9/5 by norm_num]
    exact ceil_nine_fifths
  simp only [Calculator.CalculateLeverage, hc]
  norm_num

theorem exampleTP_eq :
    (Calculator.New 125).CalculateRRTakeProfit 45000 44500 2 Side.long = 46000 := by
  show (45000 : ℚ) + |(45000 : ℚ) - 44500| * 2 = 46000
  rw [show ((45000:ℚ) - 44500) = 500 by norm_num, abs_of_nonneg] <;> norm_num

theorem examplePlan_eq :
    (RiskRatioStrategy.New 2).CalculatePosition exampleParams 0 = Except.ok examplePlan := by
  rw [CalculatePosition_ok_eq _ _ _ exampleValidate_ok]
  simp only [RiskRatioStrategy.New, calculatorSideFromStrategy, exampleParams, examplePlan]
  rw [exampleSize_eq, exampleLeverage_eq, exampleTP_eq]
  norm_num

theorem highMaxValidate_ok :
    (RiskRatioStrategy.New 2).calculator.ValidateInputs
      (calculatorSideFromStrategy highMaxParams.side) highMaxParams.EntryPrice
      highMaxParams.StopLoss highMaxParams.RiskPercent highMaxParams.AccountBalance
      = Except.ok () := by
  norm_num [RiskRatioStrategy.New, calculatorSideFromStrategy, highMaxParams,
    Calculator.ValidateInputs, Calculator.ValidateStopLoss]
  exact fun h => Side.noConfusion h

theorem highMaxSize_eq :
    (Calculator.New 125).CalculateSize 1000 100 1500 1490 Side.long = 100 := by
  norm_num [Calculator.CalculateSize]

theorem highMaxLeverage_eq :
    (Calculator.New 125).CalculateLeverage 100 1500 1000 200 = 150 := by
  have hc : (⌈((100:ℚ) * 1500 / 1000)⌉ : ℤ) = 150 := by
    rw [show ((100:ℚ) * 1500 / 1000) = 150 by norm_num]
    rw [Int.ceil_eq_iff]
    norm_num
  simp only [Calculator.CalculateLeverage, hc]
  norm_num

theorem zeroMaxValidate_ok :
    (RiskRatioStrategy.New 2).calculator.ValidateInputs
      (calculatorSideFromStrategy zeroMaxParams.side) zeroMaxParams.EntryPrice
      zeroMaxParams.StopLoss zeroMaxParams.RiskPercent zeroMaxParams.AccountBalance
      = Except.ok () := by
  norm_num [RiskRatioStrategy.New, calculatorSideFromStrategy, zeroMaxParams, exampleParams,
    Calculator.ValidateInputs, Calculator.ValidateStopLoss]
  exact fun h => Side.noConfusion h

theorem zeroMaxLeverage_eq :
    (Calculator.New 125).CalculateLeverage (1/25) 45000 1000 0 = 0 := by
  have hc : (⌈((1:ℚ)/25 * 45000 / 1000)⌉ : ℤ) = 2 := by
    rw [show ((1:ℚ)/25 * 45000 / 1000) = 9/5 by norm_num]
    exact ceil_nine_fifths
  simp only [Calculator.CalculateLeverage, hc]
  norm_num

/-- C1: for every input passing validation (Long: entry > stopLoss; Short:
stopLoss > entry; balance > 0; 0 < riskPercent ≤ 100; prices > 0),
`CalculateSize` returns `balance*riskPercent/100` divided by
`entry - stopLoss` for Long and by `stopLoss - entry` for Short. -/
theorem CalculateSize_formula (c : Calculator) (balance riskPercent entry stopLoss : ℚ)
    (side : Side)
    (hbal : 0 < balance) (hrisk0 : 0 < riskPercent) (hrisk1 : riskPercent ≤ 100)
    (hentry : 0 < entry) (hstop : 0 < stopLoss)
    (hrel : (side = Side.long ∧ stopLoss < entry) ∨ (side = Side.short ∧ entry < stopLoss)) :
    (side = Side.long → c.CalculateSize balance riskPercent entry stopLoss side
        = balance * riskPercent / 100 / (entry - stopLoss))
    ∧ (side = Side.short → c.CalculateSize balance riskPercent entry stopLoss side
        = balance * riskPercent / 100 / (stopLoss - entry)) := by
  constructor <;> rintro rfl <;> simp [Calculator.CalculateSize, mul_div_assoc]

/-- C1 witness: balance 1000, risk 2 percent, entry 45000, stop 44500, Long
gives size 0.04. -/
theorem CalculateSize_formula_witness :
    (Calculator.New 125).CalculateSize 1000 2 45000 44500 Side.long = 0.04 := by
  have h := (CalculateSize_formula (Calculator.New 125) 1000 2 45000 44500 Side.long
    (by norm_num) (by norm_num) (by norm_num) (by norm_num) (by norm_num)
    (Or.inl ⟨rfl, by norm_num⟩)).1 rfl
  rw [h]
  norm_num

/-- C2: for positive size, price, balance and integer `maxLeverage ≥ 1`,
`CalculateLeverage` is `clamp(ceil(size*price/balance), 1, maxLeverage)` and
lands in `[1, maxLeverage]`. -/
theorem CalculateLeverage_clamped (c : Calculator) (size price balance : ℚ)
    (maxLeverage : Int)
    (hsize : 0 < size) (hprice : 0 < price) (hbal : 0 < balance)
    (hmax : 1 ≤ maxLeverage) :
    c.CalculateLeverage size price balance maxLeverage
        = max 1 (min ⌈size * price / balance⌉ maxLeverage)
    ∧ 1 ≤ c.CalculateLeverage size price balance maxLeverage
    ∧ c.CalculateLeverage size price balance maxLeverage ≤ maxLeverage := by
  simp only [Calculator.CalculateLeverage]
  generalize (⌈size * price / balance⌉ : ℤ) = k
  split_ifs <;> refine ⟨?_, ?_, ?_⟩ <;> omega

/-- C2 witness: size 0.04, price 45000, balance 1000, max 125 gives
leverage 2. -/
theorem CalculateLeverage_clamped_witness :
    (Calculator.New 125).CalculateLeverage 0.04 45000 1000 125 = 2 := by
  have h := (CalculateLeverage_clamped (Calculator.New 125) 0.04 45000 1000 125
    (by norm_num) (by norm_num) (by norm_num) (by norm_num)).1
  rw [h, show ((0.04 : ℚ) * 45000 / 1000) = 9/5 by norm_num, ceil_nine_fifths]
  omega

/-- C3: `ValidateInputs` returns an error iff entryPrice ≤ 0, stopLoss ≤ 0,
riskPercent ≤ 0, riskPercent > 100, accountEquity ≤ 0, or the side/stop-loss
relationship is violated (equality included); otherwise it returns ok. -/
theorem ValidateInputs_error_iff (c : Calculator) (side : Side)
    (entryPrice stopLoss riskPercent accountEquity : ℚ) :
    ((∃ e, c.ValidateInputs side entryPrice stopLoss riskPercent accountEquity
        = Except.error e)
      ↔ (entryPrice ≤ 0 ∨ stopLoss ≤ 0 ∨ riskPercent ≤ 0 ∨ 100 < riskPercent
          ∨ accountEquity ≤ 0
          ∨ (side = Side.long ∧ entryPrice ≤ stopLoss)
          ∨ (side = Side.short ∧ stopLoss ≤ entryPrice)))
    ∧ (c.ValidateInputs side entryPrice stopLoss riskPercent accountEquity
        = Except.ok ()
      ↔ ¬(entryPrice ≤ 0 ∨ stopLoss ≤ 0 ∨ riskPercent ≤ 0 ∨ 100 < riskPercent
          ∨ accountEquity ≤ 0
          ∨ (side = Side.long ∧ entryPrice ≤ stopLoss)
          ∨ (side = Side.short ∧ stopLoss ≤ entryPrice))) := by
  cases side <;>
    simp only [Calculator.ValidateInputs, Calculator.ValidateStopLoss] <;>
    split_ifs with hA hB hC hD hE hF <;>
    simp_all <;>
    first
    | tauto
    | exact ⟨by tauto, fun p1 p2 p3 => by rcases hC with h | h <;> linarith⟩

/-- C4 counterexample: with the caller requesting `MaxLeverage = 200` and a
valid input whose required leverage is 150, the plan's `Leverage` is 150 —
strictly above the strategy's internal ceiling of 125, so that ceiling is not
applied. -/
theorem riskratio_internal_cap_not_applied :
    Except.map PositionPlan.Leverage
        ((RiskRatioStrategy.New 2).CalculatePosition highMaxParams 0)
      = Except.ok 150
    ∧ (125 : Int) < 150 := by
  constructor
  · rw [CalculatePosition_ok_eq _ _ _ highMaxValidate_ok]
    simp only [Except.map, RiskRatioStrategy.New, calculatorSideFromStrategy, highMaxParams]
    rw [highMaxSize_eq, highMaxLeverage_eq]
  · norm_num

/-- C4 amended: the plan's `Leverage` is `CalculateLeverage` applied with the
caller's requested `MaxLeverage` — the strategy's own 125 ceiling plays no
role — and the plan's `RiskPercent` is the requested risk percent, unclamped. -/
theorem riskratio_leverage_uses_caller_max (s : RiskRatioStrategy)
    (params : PositionParams) (now : Nat) (plan : PositionPlan)
    (h : s.CalculatePosition params now = Except.ok plan) :
    plan.Leverage = s.calculator.CalculateLeverage
        (s.calculator.CalculateSize params.AccountBalance params.RiskPercent
          params.EntryPrice params.StopLoss (calculatorSideFromStrategy params.side))
        params.EntryPrice params.AccountBalance params.MaxLeverage
    ∧ plan.RiskPercent = params.RiskPercent := by
  cases hv : s.calculator.ValidateInputs (calculatorSideFromStrategy params.side)
      params.EntryPrice params.StopLoss params.RiskPercent params.AccountBalance with
  | error e =>
    rw [CalculatePosition_error_eq s params now e hv] at h
    exact absurd h (by simp)
  | ok u =>
    cases u
    rw [CalculatePosition_ok_eq s params now hv] at h
    injection h with h
    subst h
    exact ⟨rfl, rfl⟩

/-- C4 amended witness: the spec's worked example (MaxLeverage 125). -/
theorem riskratio_leverage_uses_caller_max_witness :
    examplePlan.Leverage = (RiskRatioStrategy.New 2).calculator.CalculateLeverage
        ((RiskRatioStrategy.New 2).calculator.CalculateSize exampleParams.AccountBalance
          exampleParams.RiskPercent exampleParams.EntryPrice exampleParams.StopLoss
          (calculatorSideFromStrategy exampleParams.side))
        exampleParams.EntryPrice exampleParams.AccountBalance exampleParams.MaxLeverage
    ∧ examplePlan.RiskPercent = exampleParams.RiskPercent :=
  riskratio_leverage_uses_caller_max (RiskRatioStrategy.New 2) exampleParams 0
    examplePlan examplePlan_eq

/-- C5: `CalculatePosition` yields either a wrapped validation error or a
complete plan: one Fixed stop-loss at the requested stop price, one Limit
take-profit for 100 percent, `RiskAmount = balance*riskPercent/100`,
`NotionalValue = size*entry`, strategy name "risk-ratio". -/
theorem riskratio_plan_complete (s : RiskRatioStrategy) (params : PositionParams)
    (now : Nat) :
    (∀ plan, s.CalculatePosition params now = Except.ok plan →
      plan.StopLoss = { Price := params.StopLoss, type := StopLossType.fixed }
      ∧ (∃ tp, plan.TakeProfits = [tp]
          ∧ tp.type = TakeProfitType.limit ∧ tp.Percentage = 100)
      ∧ plan.RiskAmount = params.AccountBalance * params.RiskPercent / 100
      ∧ plan.NotionalValue = plan.Size * params.EntryPrice
      ∧ plan.StrategyName = "risk-ratio")
    ∧ (∀ e, s.calculator.ValidateInputs (calculatorSideFromStrategy params.side)
          params.EntryPrice params.StopLoss params.RiskPercent params.AccountBalance
          = Except.error e →
        s.CalculatePosition params now = Except.error ("validation failed: " ++ e)) := by
  constructor
  · intro plan h
    cases hv : s.calculator.ValidateInputs (calculatorSideFromStrategy params.side)
        params.EntryPrice params.StopLoss params.RiskPercent params.AccountBalance with
    | error e =>
      rw [CalculatePosition_error_eq s params now e hv] at h
      exact absurd h (by simp)
    | ok u =>
      cases u
      rw [CalculatePosition_ok_eq s params now hv] at h
      injection h with h
      subst h
      exact ⟨rfl, ⟨_, rfl, rfl, rfl⟩, rfl, rfl, rfl⟩
  · intro e hv
    exact CalculatePosition_error_eq s params now e hv

/-- C6: `CalculateRRTakeProfit` returns `entry + |entry-stopLoss|*rr` for Long
and `entry - |entry-stopLoss|*rr` for Short; Short entry 3000 / stop 3100 /
rr 2 gives 2800 and Long entry 45000 / stop 44500 / rr 2 gives 46000. -/
theorem CalculateRRTakeProfit_formula (c : Calculator) (entry stopLoss rr : ℚ) :
    c.CalculateRRTakeProfit entry stopLoss rr Side.long
        = entry + |entry - stopLoss| * rr
    ∧ c.CalculateRRTakeProfit entry stopLoss rr Side.short
        = entry - |entry - stopLoss| * rr
    ∧ (Calculator.New 125).CalculateRRTakeProfit 3000 3100 2 Side.short = 2800
    ∧ (Calculator.New 125).CalculateRRTakeProfit 45000 44500 2 Side.long = 46000 := by
  refine ⟨rfl, rfl, ?_, exampleTP_eq⟩
  show (3000 : ℚ) - |(3000 : ℚ) - 3100| * 2 = 2800
  rw [show ((3000:ℚ) - 3100) = -100 by norm_num, abs_neg, abs_of_nonneg] <;> norm_num

/-- C7: `CalculatePosition` is deterministic in its inputs apart from the
timestamp — two calls with identical params agree as errors, or as plans
once the timestamp is erased. -/
theorem riskratio_deterministic (s : RiskRatioStrategy) (params : PositionParams)
    (t1 t2 : Nat) :
    Except.map stripTimestamp (s.CalculatePosition params t1)
      = Except.map stripTimestamp (s.CalculatePosition params t2) := by
  cases hv : s.calculator.ValidateInputs (calculatorSideFromStrategy params.side)
      params.EntryPrice params.StopLoss params.RiskPercent params.AccountBalance with
  | error e =>
    rw [CalculatePosition_error_eq s params t1 e hv,
      CalculatePosition_error_eq s params t2 e hv]
  | ok u =>
    cases u
    rw [CalculatePosition_ok_eq s params t1 hv, CalculatePosition_ok_eq s params t2 hv]
    rfl

/-- C8: the risk-ratio strategy's lifecycle hooks are no-ops: `OnPriceUpdate`
is always the `None` action with no error, `ShouldClose` is always
`(false, "")`, `OnPositionOpened` never errors — for every position and
price. -/
theorem riskratio_lifecycle_noop (s : RiskRatioStrategy) (position : Position)
    (currentPrice : ℚ) :
    s.OnPriceUpdate position currentPrice
        = Except.ok { type := ActionType.none, Reason := "" }
    ∧ s.ShouldClose position currentPrice = (false, "")
    ∧ s.OnPositionOpened position = Except.ok () :=
  ⟨rfl, rfl, rfl⟩

/-- C9: `CalculatePnLPercent` is total: 0 whenever `entryPrice ≤ 0`, else the
side's PnL formula; `CalculateDistanceToPrice` likewise returns 0 whenever
`currentPrice ≤ 0`, else the side's distance formula — no division by zero
can occur. -/
theorem pnl_and_distance_total (c : Calculator)
    (entryPrice markPrice currentPrice targetPrice : ℚ) :
    c.CalculatePnLPercent Side.long entryPrice markPrice
        = (if entryPrice ≤ 0 then 0 else (markPrice - entryPrice) / entryPrice * 100)
    ∧ c.CalculatePnLPercent Side.short entryPrice markPrice
        = (if entryPrice ≤ 0 then 0 else (entryPrice - markPrice) / entryPrice * 100)
    ∧ c.CalculateDistanceToPrice Side.long currentPrice targetPrice
        = (if currentPrice ≤ 0 then 0
            else (targetPrice - currentPrice) / currentPrice * 100)
    ∧ c.CalculateDistanceToPrice Side.short currentPrice targetPrice
        = (if currentPrice ≤ 0 then 0
            else (currentPrice - targetPrice) / currentPrice * 100) :=
  ⟨rfl, rfl, rfl, rfl⟩

/-- C10: when the required leverage exceeds `maxLeverage`, `CalculateLeverage`
returns `maxLeverage` itself, even below 1; with `maxLeverage = 0` the result
is 0, and the strategy accepts `MaxLeverage = 0` (validation never checks it),
producing a plan with leverage 0. -/
theorem CalculateLeverage_cap_overrides_floor (c : Calculator)
    (size price balance : ℚ) (maxLeverage : Int)
    (h : maxLeverage < ⌈size * price / balance⌉) :
    c.CalculateLeverage size price balance maxLeverage = maxLeverage
    ∧ (Calculator.New 125).CalculateLeverage (1/25) 45000 1000 0 = 0
    ∧ Except.map PositionPlan.Leverage
        ((RiskRatioStrategy.New 2).CalculatePosition zeroMaxParams 0)
      = Except.ok 0 := by
  refine ⟨?_, zeroMaxLeverage_eq, ?_⟩
  · simp only [Calculator.CalculateLeverage]
    generalize hk : (⌈size * price / balance⌉ : ℤ) = k
    rw [hk] at h
    split_ifs <;> omega
  · rw [CalculatePosition_ok_eq _ _ _ zeroMaxValidate_ok]
    simp only [Except.map, RiskRatioStrategy.New, calculatorSideFromStrategy,
      zeroMaxParams, exampleParams]
    rw [exampleSize_eq, zeroMaxLeverage_eq]

/-- C10 witness: size 1/25, price 45000, balance 1000, maxLeverage 0 — the
required leverage 2 exceeds 0, and the function returns 0. -/
theorem CalculateLeverage_cap_overrides_floor_witness :
    (Calculator.New 125).CalculateLeverage (1/25) 45000 1000 0 = 0 :=
  (CalculateLeverage_cap_overrides_floor (Calculator.New 125) (1/25) 45000 1000 0
    (by rw [show ((1:ℚ)/25 * 45000 / 1000) = 9/5 by norm_num, ceil_nine_fifths]
        norm_num)).1
